import Mathlib

/-!
# Verification of the cloudwatch-logs-to-splunk pipeline declaration

A shallow embedding of the repository's `CloudWatchToSplunk` CDK construct
(`src/constructs/CloudWatchToSplunk.ts`) and of the IP-validation helper
(`src/functions/get-public-ip.ts`), together with theorems settling the
specification's claims about them.

The construct is a pure producer of declarative resource configuration, so it
is embedded as a function from its props to the record of synthesized
resources.  CDK construct-id collisions (adding the subscription filter child
`kinesis` twice to the same log group) abort synthesis, which the embedding
renders as `Except.error`.
-/

namespace CloudWatchLogsToSplunk

/-- An external CloudWatch log group handed to the construct, identified by
its construct instance identity (`props.logGroups` in the source). -/
structure LogGroupRef where
  id : Nat
  deriving DecidableEq

/-- `SecretValue` in the two forms this repository passes to the
construct: the test supplies `SecretValue.plainText('value')`, a wrapper
around the literal secret string, and the deployment stack supplies
`SplunkService.hecToken`, which is `Secret.secretValue` of a
Secrets-Manager secret (`SplunkService.ts`). -/
inductive SecretValue where
  | plainText (value : String)
  | secretsManager (secretArn : String)
  deriving DecidableEq

/-- CDK `SecretValue#toString()` as it synthesizes into the template: a
plaintext secret resolves to the wrapped literal string (asserted by the
repository's template test: `HECToken: "value"` for
`SecretValue.plainText('value')`), while a Secrets-Manager-backed secret
resolves to the CloudFormation dynamic reference
`\x7b\x7bresolve:secretsmanager:...\x7d\x7d` for the backing secret. -/
def SecretValue.toStr : SecretValue → String
  | .plainText v => v
  | .secretsManager arn =>
    "\x7b\x7bresolve:secretsmanager:" ++ arn ++ ":SecretString:::\x7d\x7d"

/-- `CloudWatchToSplunkProps` from the source. -/
structure CloudWatchToSplunkProps where
  logGroups : List LogGroupRef
  hecEndpoint : String
  hecToken : SecretValue

/-- Kinesis `StreamMode` (aws-cdk-lib/aws-kinesis). -/
inductive StreamMode where
  | PROVISIONED
  | ON_DEMAND
  deriving DecidableEq

/-- Props accepted by `new Stream(...)` that are relevant here. -/
structure StreamProps where
  streamMode : StreamMode
  retentionPeriodHours : Option Nat
  shardCount : Option Nat

/-- The synthesized `AWS::Kinesis::Stream` resource. -/
structure KinesisStream where
  streamMode : StreamMode
  retentionPeriodHours : Nat
  shardCount : Option Nat
  streamArn : String
  deriving DecidableEq

/-- `new Stream(this, 'IngestStream', props)`: the CDK default retention
period of 24 hours applies when no override is given (the repository's
template test asserts `RetentionPeriodHours: 24`). -/
def KinesisStream.make (arn : String) (props : StreamProps) : KinesisStream :=
  { streamMode := props.streamMode
    retentionPeriodHours := props.retentionPeriodHours.getD 24
    shardCount := props.shardCount
    streamArn := arn }

/-- The synthesized `AWS::Logs::SubscriptionFilter` resource produced by
`logGroup.addSubscriptionFilter('kinesis', ...)`. -/
structure SubscriptionFilter where
  logGroup : LogGroupRef
  destinationArn : String
  filterPattern : String
  deriving DecidableEq

/-- `FilterPattern.allEvents()` synthesizes to the empty filter pattern
(the template test asserts `FilterPattern: ""`). -/
def FilterPattern.allEvents : String := ""

/-- CDK `RemovalPolicy`. -/
inductive RemovalPolicy where
  | DESTROY
  | RETAIN
  deriving DecidableEq

/-- The synthesized `AWS::S3::Bucket` resource. -/
structure Bucket where
  removalPolicy : RemovalPolicy
  autoDeleteObjects : Bool
  bucketArn : String
  deriving DecidableEq

/-- The synthesized `AWS::Logs::LogGroup` resource. -/
structure LogGroupResource where
  removalPolicy : RemovalPolicy
  retentionInDays : Nat
  logGroupName : String
  deriving DecidableEq

/-- The synthesized `AWS::Logs::LogStream` resource. -/
structure LogStreamResource where
  logGroupName : String
  logStreamName : String
  removalPolicy : RemovalPolicy
  deriving DecidableEq

/-- The synthesized `AWS::Lambda::Function` resource. -/
structure LambdaFunction where
  timeoutSeconds : Nat
  handler : String
  runtime : String
  functionArn : String
  deriving DecidableEq

/-- `SplunkDestinationConfiguration.cloudWatchLoggingOptions`. -/
structure CloudWatchLoggingOptions where
  logGroupName : String
  logStreamName : String
  enabled : Bool
  deriving DecidableEq

/-- One entry of a processor's `parameters` list. -/
structure ProcessorParameter where
  parameterName : String
  parameterValue : String
  deriving DecidableEq

/-- One entry of `processingConfiguration.processors`. -/
structure Processor where
  type : String
  parameters : List ProcessorParameter
  deriving DecidableEq

/-- `SplunkDestinationConfiguration.processingConfiguration`. -/
structure ProcessingConfiguration where
  enabled : Bool
  processors : List Processor
  deriving DecidableEq

/-- `SplunkDestinationConfiguration.s3Configuration`. -/
structure S3Configuration where
  bucketArn : String
  roleArn : String
  deriving DecidableEq

/-- The `splunkDestinationConfiguration` block of the delivery stream. -/
structure SplunkDestinationConfiguration where
  cloudWatchLoggingOptions : CloudWatchLoggingOptions
  processingConfiguration : ProcessingConfiguration
  hecEndpoint : String
  hecEndpointType : String
  hecToken : String
  s3Configuration : S3Configuration
  deriving DecidableEq

/-- The `kinesisStreamSourceConfiguration` block of the delivery stream. -/
structure KinesisStreamSourceConfiguration where
  kinesisStreamArn : String
  roleArn : String
  deriving DecidableEq

/-- The synthesized `AWS::KinesisFirehose::DeliveryStream` resource. -/
structure CfnDeliveryStream where
  deliveryStreamType : String
  kinesisStreamSourceConfiguration : KinesisStreamSourceConfiguration
  splunkDestinationConfiguration : SplunkDestinationConfiguration
  deriving DecidableEq

/-- Every resource the `CloudWatchToSplunk` constructor creates. -/
structure CloudWatchToSplunkResources where
  ingestStream : KinesisStream
  subscriptionFilters : List SubscriptionFilter
  backupBucket : Bucket
  kinesisDeliveryStreamLogs : LogGroupResource
  kinesisErrorsLogStream : LogStreamResource
  cloudwatchTransformer : LambdaFunction
  splunkDeliveryStream : CfnDeliveryStream
  deriving DecidableEq

/-- Symbolic ARN of the construct's ingest stream. -/
def ingestStreamArn : String := "arn:aws:kinesis:IngestStream"

/-- Symbolic ARN of the construct's backup bucket. -/
def backupBucketArn : String := "arn:aws:s3:BackupBucket"

/-- Symbolic ARN of the transform Lambda. -/
def cloudwatchTransformerArn : String := "arn:aws:lambda:CloudWatchTransformer"

/-- Symbolic ARN of the delivery-stream IAM role. -/
def deliveryStreamRoleArn : String := "arn:aws:iam:DeliveryStreamRole"

/-- Generated name of the Kinesis delivery error log group. -/
def kinesisDeliveryStreamLogsName : String := "KinesisDeliveryStreamLogs"

/-- The resources the `CloudWatchToSplunk` constructor body creates, in
source order. -/
def synthesizedResources (props : CloudWatchToSplunkProps) :
    CloudWatchToSplunkResources :=
  let ingestStream := KinesisStream.make ingestStreamArn
    { streamMode := StreamMode.ON_DEMAND
      retentionPeriodHours := none
      shardCount := none }
  { ingestStream := ingestStream
    subscriptionFilters := props.logGroups.map fun logGroup =>
      { logGroup := logGroup
        destinationArn := ingestStream.streamArn
        filterPattern := FilterPattern.allEvents }
    backupBucket :=
      { removalPolicy := RemovalPolicy.DESTROY
        autoDeleteObjects := true
        bucketArn := backupBucketArn }
    kinesisDeliveryStreamLogs :=
      { removalPolicy := RemovalPolicy.DESTROY
        retentionInDays := 1
        logGroupName := kinesisDeliveryStreamLogsName }
    kinesisErrorsLogStream :=
      { logGroupName := kinesisDeliveryStreamLogsName
        logStreamName := "errors"
        removalPolicy := RemovalPolicy.DESTROY }
    cloudwatchTransformer :=
      { timeoutSeconds := 300
        handler := "cloudwatch-log-group-processor.handler"
        runtime := "nodejs14.x"
        functionArn := cloudwatchTransformerArn }
    splunkDeliveryStream :=
      { deliveryStreamType := "KinesisStreamAsSource"
        kinesisStreamSourceConfiguration :=
          { kinesisStreamArn := ingestStream.streamArn
            roleArn := deliveryStreamRoleArn }
        splunkDestinationConfiguration :=
          { cloudWatchLoggingOptions :=
              { logGroupName := kinesisDeliveryStreamLogsName
                logStreamName := "errors"
                enabled := true }
            processingConfiguration :=
              { enabled := true
                processors :=
                  [ { type := "Lambda"
                      parameters :=
                        [ { parameterName := "LambdaArn"
                            parameterValue := cloudwatchTransformerArn }
                        , { parameterName := "RoleArn"
                            parameterValue := deliveryStreamRoleArn } ] } ] }
            hecEndpoint := props.hecEndpoint
            hecEndpointType := "Raw"
            hecToken := props.hecToken.toStr
            s3Configuration :=
              { bucketArn := backupBucketArn
                roleArn := deliveryStreamRoleArn } } } }

/-- The `CloudWatchToSplunk` constructor.  `addSubscriptionFilter` is
called with the fixed child id `kinesis` on each log group, so listing
the same log group twice collides on that id and synthesis fails; the
embedding returns `Except.error` in that case and the synthesized
resource set otherwise. -/
def cloudWatchToSplunk (props : CloudWatchToSplunkProps) :
    Except String CloudWatchToSplunkResources :=
  if props.logGroups.Nodup then
    Except.ok (synthesizedResources props)
  else
    Except.error "There is already a Construct with name kinesis"

/-- Sample props used to instantiate the construct theorems: two distinct
log groups, the HTTPS endpoint and plaintext token of the repository's
test. -/
def exampleProps : CloudWatchToSplunkProps :=
  { logGroups := [⟨0⟩, ⟨1⟩]
    hecEndpoint := "https://my-endpoint:8088"
    hecToken := SecretValue.plainText "value" }

/-! ## `src/functions/get-public-ip.ts`

`checkIfValidIP` tests its input against the regular expression

  `^(([0-9]|[1-9][0-9]|1[0-9]{2}|2[0-4][0-9]|25[0-5])\.){3}([0-9]|[1-9][0-9]|1[0-9]{2}|2[0-4][0-9]|25[0-5])$`

and returns the input unchanged on a match, throwing otherwise.  The regex
is embedded as a backtracking matcher over the character list: `octetRests`
returns, in the alternation's order, every residual input a match of the
octet group can leave; the `{3}` repetition is unrolled. -/

/-- The character class `[0-9]` (code points 48 to 57). -/
def isDigitChar (c : Char) : Bool := 48 ≤ c.toNat && c.toNat ≤ 57

/-- The one-character alternative `[0-9]`. -/
def octet1 (a : Char) : Bool := isDigitChar a

/-- The two-character alternative `[1-9][0-9]`. -/
def octet2 (a b : Char) : Bool :=
  (49 ≤ a.toNat && a.toNat ≤ 57) && isDigitChar b

/-- The three-character alternatives
`1[0-9]{2}`, `2[0-4][0-9]` and `25[0-5]`, in the regex's order. -/
def octet3 (a b c : Char) : Bool :=
  (a.toNat = 49 && isDigitChar b && isDigitChar c) ||
  (a.toNat = 50 && (48 ≤ b.toNat && b.toNat ≤ 52) && isDigitChar c) ||
  (a.toNat = 50 && b.toNat = 53 && (48 ≤ c.toNat && c.toNat ≤ 53))

/-- Residual inputs after matching the octet group
`([0-9]|[1-9][0-9]|1[0-9]{2}|2[0-4][0-9]|25[0-5])` once, one candidate per
alternative that applies, grouped by how many characters the alternative
consumes (one, two, or three), shorter alternatives first as in the
regex. -/
def octetRests (cs : List Char) : List (List Char) :=
  (match cs with
   | a :: r => if octet1 a then [r] else []
   | [] => []) ++
  (match cs with
   | a :: b :: r => if octet2 a b then [r] else []
   | _ => []) ++
  (match cs with
   | a :: b :: c :: r => if octet3 a b c then [r] else []
   | _ => [])

/-- Consume the literal `\.` of the regex: succeeds exactly on a residue
starting with the dot. -/
def dotStep : List Char → Option (List Char)
  | '.' :: r2 => some r2
  | _ => none

/-- Residual inputs after matching one `(octet\.)` group: an octet match
whose residue starts with the literal dot. -/
def octetDotRests (cs : List Char) : List (List Char) :=
  (octetRests cs).filterMap dotStep

/-- Whole-string test for
`^(octet\.){3}octet$`, the `{3}` repetition unrolled: three `(octet\.)`
steps, then a final octet that must consume the rest (`$`).  `^` is the
start of the list; acceptance is through any backtracking path. -/
def regexTest (s : String) : Bool :=
  ((octetDotRests s.data).flatMap octetDotRests).flatMap octetDotRests
    |>.any fun r => (octetRests r).any (· = [])

/-- `checkIfValidIP` from the source: the matching input is returned
unchanged, any other input throws `` `${ip} does not look valid.` ``. -/
def checkIfValidIP (ip : String) : Except String String :=
  if regexTest ip then Except.ok ip
  else Except.error (ip ++ " does not look valid.")

/-- The JSON body returned by the ipify service. -/
structure IPIfyResponse where
  ip : String

/-- `getPublicIp` from the source, applied to the parsed fetch response:
the `ip` field is passed to `checkIfValidIP`; any thrown error is rethrown
with the `Couldn't get your public IP:` prefix. -/
def getPublicIp (data : IPIfyResponse) : Except String String :=
  match checkIfValidIP data.ip with
  | Except.ok ip => Except.ok ip
  | Except.error e =>
    Except.error ("Could not get your public IP: Error: " ++ e)

/-! ## Specification-side predicates -/

/-- The octet language of the regex, stated on one whole component: a
component matches exactly when one of the alternatives consumes all of
it. -/
def octetShape (p : List Char) : Bool :=
  match p with
  | [a] => octet1 a
  | [a, b] => octet2 a b
  | [a, b, c] => octet3 a b c
  | _ => false

/-- Numeric value of one decimal digit character. -/
def digitVal (c : Char) : Nat := c.toNat - 48

/-- Numeric value of a string of decimal digit characters. -/
def digitsVal (cs : List Char) : Nat :=
  cs.foldl (fun a c => 10 * a + digitVal c) 0

/-- One octet of a dotted-quad IPv4 address in its standard textual form:
nonempty, decimal digits only, no leading zero except the single digit
`0`, and value at most 255. -/
def isCanonicalOctet (p : List Char) : Bool :=
  match p with
  | [] => false
  | c :: rest =>
    isDigitChar c && rest.all isDigitChar &&
      (c.toNat ≠ 48 || rest.isEmpty) && digitsVal (c :: rest) ≤ 255

/-- Split a character list on the dot separator (every component between
consecutive dots, including empty ones). -/
def splitOnDot : List Char → List (List Char)
  | [] => [[]]
  | c :: rest =>
    if c = '.' then [] :: splitOnDot rest
    else
      match splitOnDot rest with
      | [] => [[c]]
      | p :: ps => (c :: p) :: ps

/-- Rejoin dot-separated components. -/
def joinDots : List (List Char) → List Char
  | [] => []
  | [p] => p
  | p :: ps => p ++ '.' :: joinDots ps

/-- The claim's validity predicate: the whole string is a dotted-quad IPv4
address, four dot-separated octets each lying in 0 to 255. -/
def isDottedQuadIPv4 (s : String) : Bool :=
  match splitOnDot s.data with
  | [p1, p2, p3, p4] =>
    isCanonicalOctet p1 && isCanonicalOctet p2 &&
      isCanonicalOctet p3 && isCanonicalOctet p4
  | _ => false

/-! ## Lemmas about the octet matcher -/

theorem dotStep_eq_some (x r : List Char) :
    dotStep x = some r ↔ x = '.' :: r := by
  unfold dotStep
  split
  · rename_i r2
    simp
  · rename_i hno
    constructor
    · intro h
      simp at h
    · intro h
      exact absurd h (by intro hh; exact hno r hh)

theorem octetRests_nil : octetRests [] = [] := rfl

theorem octetRests_one (a : Char) :
    octetRests [a] = if octet1 a then [([] : List Char)] else [] := by
  cases h : octet1 a <;> simp [octetRests, h]

theorem octetRests_two (a b : Char) :
    octetRests [a, b] =
      (if octet1 a then [[b]] else []) ++
        (if octet2 a b then [([] : List Char)] else []) := by
  cases h1 : octet1 a <;> cases h2 : octet2 a b <;>
    simp [octetRests, h1, h2]

theorem octetRests_big (a b c : Char) (rest : List Char) :
    octetRests (a :: b :: c :: rest) =
      (if octet1 a then [b :: c :: rest] else []) ++
        (if octet2 a b then [c :: rest] else []) ++
          (if octet3 a b c then [rest] else []) := by
  cases h1 : octet1 a <;> cases h2 : octet2 a b <;> cases h3 : octet3 a b c <;>
    simp [octetRests, h1, h2, h3]

theorem mem_octetRests (cs r : List Char) :
    r ∈ octetRests cs ↔ ∃ p, octetShape p = true ∧ cs = p ++ r := by
  constructor
  · intro h
    rcases cs with _ | ⟨a, _ | ⟨b, _ | ⟨c, rest⟩⟩⟩
    · simp [octetRests_nil] at h
    · rw [octetRests_one] at h
      by_cases h1 : octet1 a = true
      · rw [if_pos h1] at h
        simp at h
        subst h
        exact ⟨[a], by simp [octetShape, h1], rfl⟩
      · rw [if_neg h1] at h
        simp at h
    · rw [octetRests_two, List.mem_append] at h
      rcases h with h | h
      · by_cases h1 : octet1 a = true
        · rw [if_pos h1] at h
          simp at h
          subst h
          exact ⟨[a], by simp [octetShape, h1], rfl⟩
        · rw [if_neg h1] at h
          simp at h
      · by_cases h2 : octet2 a b = true
        · rw [if_pos h2] at h
          simp at h
          subst h
          exact ⟨[a, b], by simp [octetShape, h2], rfl⟩
        · rw [if_neg h2] at h
          simp at h
    · rw [octetRests_big, List.mem_append, List.mem_append] at h
      rcases h with (h | h) | h
      · by_cases h1 : octet1 a = true
        · rw [if_pos h1] at h
          simp at h
          subst h
          exact ⟨[a], by simp [octetShape, h1], rfl⟩
        · rw [if_neg h1] at h
          simp at h
      · by_cases h2 : octet2 a b = true
        · rw [if_pos h2] at h
          simp at h
          subst h
          exact ⟨[a, b], by simp [octetShape, h2], rfl⟩
        · rw [if_neg h2] at h
          simp at h
      · by_cases h3 : octet3 a b c = true
        · rw [if_pos h3] at h
          simp at h
          subst h
          exact ⟨[a, b, c], by simp [octetShape, h3], rfl⟩
        · rw [if_neg h3] at h
          simp at h
  · rintro ⟨p, hs, rfl⟩
    rcases p with _ | ⟨a, _ | ⟨b, _ | ⟨c, _ | ⟨d, t⟩⟩⟩⟩
    · simp [octetShape] at hs
    · simp only [octetShape] at hs
      rcases r with _ | ⟨x, _ | ⟨y, r⟩⟩ <;>
        simp [octetRests_one, octetRests_two, octetRests_big, hs]
    · simp only [octetShape] at hs
      rcases r with _ | ⟨x, r⟩ <;>
        simp [octetRests_two, octetRests_big, hs]
    · simp only [octetShape] at hs
      simp [octetRests_big, hs]
    · simp [octetShape] at hs

theorem mem_octetDotRests (cs r : List Char) :
    r ∈ octetDotRests cs ↔ ∃ p, octetShape p = true ∧ cs = p ++ '.' :: r := by
  simp only [octetDotRests, List.mem_filterMap]
  constructor
  · rintro ⟨x, hx, hstep⟩
    rw [dotStep_eq_some] at hstep
    subst hstep
    rcases (mem_octetRests cs ('.' :: r)).mp hx with ⟨p, hs, rfl⟩
    exact ⟨p, hs, rfl⟩
  · rintro ⟨p, hs, rfl⟩
    refine ⟨'.' :: r, ?_, (dotStep_eq_some _ _).mpr rfl⟩
    exact (mem_octetRests _ _).mpr ⟨p, hs, rfl⟩

theorem nil_mem_octetRests (cs : List Char) :
    [] ∈ octetRests cs ↔ octetShape cs = true := by
  rw [mem_octetRests]
  constructor
  · rintro ⟨p, hs, rfl⟩
    simpa using hs
  · intro hs
    exact ⟨cs, hs, by simp⟩

/-- Acceptance by the whole regex, decomposed: the input is four octets
joined by literal dots. -/
theorem regexTest_iff (s : String) :
    regexTest s = true ↔
      ∃ p1 p2 p3 p4, octetShape p1 = true ∧ octetShape p2 = true ∧
        octetShape p3 = true ∧ octetShape p4 = true ∧
        s.data = p1 ++ '.' :: (p2 ++ '.' :: (p3 ++ '.' :: p4)) := by
  unfold regexTest
  rw [List.any_eq_true]
  constructor
  · rintro ⟨r3, hr3, hend⟩
    rw [List.mem_flatMap] at hr3
    rcases hr3 with ⟨r2, hr2, hr3⟩
    rw [List.mem_flatMap] at hr2
    rcases hr2 with ⟨r1, hr1, hr2⟩
    rw [List.any_eq_true] at hend
    rcases hend with ⟨x, hx, hxe⟩
    simp only [decide_eq_true_eq] at hxe
    subst hxe
    rcases (mem_octetRests r3 []).mp hx with ⟨p4, hs4, h4⟩
    rcases (mem_octetDotRests r2 r3).mp hr3 with ⟨p3, hs3, h3⟩
    rcases (mem_octetDotRests r1 r2).mp hr2 with ⟨p2, hs2, h2⟩
    rcases (mem_octetDotRests s.data r1).mp hr1 with ⟨p1, hs1, h1⟩
    refine ⟨p1, p2, p3, p4, hs1, hs2, hs3, hs4, ?_⟩
    rw [h1, h2, h3, h4]
    simp
  · rintro ⟨p1, p2, p3, p4, hs1, hs2, hs3, hs4, hdata⟩
    refine ⟨p4, ?_, ?_⟩
    · rw [List.mem_flatMap]
      refine ⟨p3 ++ '.' :: p4, ?_, ?_⟩
      · rw [List.mem_flatMap]
        refine ⟨p2 ++ '.' :: (p3 ++ '.' :: p4), ?_, ?_⟩
        · rw [hdata] at *
          exact (mem_octetDotRests _ _).mpr ⟨p1, hs1, rfl⟩
        · exact (mem_octetDotRests _ _).mpr ⟨p2, hs2, rfl⟩
      · exact (mem_octetDotRests _ _).mpr ⟨p3, hs3, rfl⟩
    · rw [List.any_eq_true]
      refine ⟨[], ?_, by simp⟩
      exact (nil_mem_octetRests p4).mpr hs4

/-! ## Lemmas about dotted components -/

theorem isDigitChar_ne_dot {c : Char} (h : isDigitChar c = true) : c ≠ '.' := by
  intro hc
  subst hc
  simp [isDigitChar] at h

theorem octetShape_all_digit {p : List Char} (h : octetShape p = true) :
    p.all isDigitChar = true := by
  rcases p with _ | ⟨a, _ | ⟨b, _ | ⟨c, _ | ⟨d, t⟩⟩⟩⟩ <;>
    simp only [octetShape] at h
  · exact absurd h (by simp)
  · simp only [octet1] at h
    simp [h]
  · simp only [octet2, isDigitChar, Bool.and_eq_true, decide_eq_true_eq] at h
    simp only [List.all_cons, List.all_nil, isDigitChar, Bool.and_eq_true,
      decide_eq_true_eq, and_true]
    omega
  · simp only [octet3, isDigitChar, Bool.or_eq_true, Bool.and_eq_true,
      decide_eq_true_eq] at h
    simp only [List.all_cons, List.all_nil, isDigitChar, Bool.and_eq_true,
      decide_eq_true_eq, and_true]
    omega
  · exact absurd h (by simp)

theorem octetShape_not_dot_mem {p : List Char} (h : octetShape p = true) :
    '.' ∉ p := by
  intro hmem
  have hd := octetShape_all_digit h
  rw [List.all_eq_true] at hd
  exact isDigitChar_ne_dot (hd _ hmem) rfl

theorem splitOnDot_ne_nil (cs : List Char) : splitOnDot cs ≠ [] := by
  cases cs with
  | nil => simp [splitOnDot]
  | cons c rest =>
    by_cases hc : c = '.'
    · simp [splitOnDot, hc]
    · simp only [splitOnDot, if_neg hc]
      cases splitOnDot rest <;> simp

theorem joinDots_cons_cons (c : Char) (p : List Char) (ps : List (List Char)) :
    joinDots ((c :: p) :: ps) = c :: joinDots (p :: ps) := by
  cases ps <;> simp [joinDots]

theorem joinDots_splitOnDot (cs : List Char) :
    joinDots (splitOnDot cs) = cs := by
  induction cs with
  | nil => simp [splitOnDot, joinDots]
  | cons c rest ih =>
    by_cases hc : c = '.'
    · subst hc
      rw [splitOnDot, if_pos rfl]
      rcases hps : splitOnDot rest with _ | ⟨p, ps⟩
      · exact absurd hps (splitOnDot_ne_nil rest)
      · rw [hps] at ih
        simp only [joinDots]
        rw [ih]
        simp
    · rw [splitOnDot, if_neg hc]
      rcases hps : splitOnDot rest with _ | ⟨p, ps⟩
      · exact absurd hps (splitOnDot_ne_nil rest)
      · rw [hps] at ih
        rw [joinDots_cons_cons, ih]

theorem splitOnDot_append (p r : List Char) (hp : '.' ∉ p) :
    splitOnDot (p ++ '.' :: r) = p :: splitOnDot r := by
  induction p with
  | nil => simp [splitOnDot]
  | cons c p ih =>
    have hc : c ≠ '.' := fun hcc => hp (by simp [hcc])
    have hp2 : '.' ∉ p := fun hmem => hp (List.mem_cons_of_mem _ hmem)
    rw [List.cons_append, splitOnDot, if_neg hc, ih hp2]

theorem splitOnDot_dotfree (p : List Char) (hp : '.' ∉ p) :
    splitOnDot p = [p] := by
  induction p with
  | nil => simp [splitOnDot]
  | cons c p ih =>
    have hc : c ≠ '.' := fun hcc => hp (by simp [hcc])
    have hp2 : '.' ∉ p := fun hmem => hp (List.mem_cons_of_mem _ hmem)
    rw [splitOnDot, if_neg hc, ih hp2]

/-! ## The octet language is exactly the canonical octets 0 to 255 -/

theorem foldl_digits_le (cs : List Char) (acc : Nat) :
    acc * 10 ^ cs.length ≤
      cs.foldl (fun x c => 10 * x + digitVal c) acc := by
  induction cs generalizing acc with
  | nil => simp
  | cons c cs ih =>
    have h1 : acc * 10 ^ (c :: cs).length = 10 * acc * 10 ^ cs.length := by
      simp [pow_succ]
      ring
    have h2 : 10 * acc * 10 ^ cs.length ≤
        (10 * acc + digitVal c) * 10 ^ cs.length :=
      Nat.mul_le_mul_right _ (by omega)
    have h3 : (10 * acc + digitVal c) * 10 ^ cs.length ≤
        cs.foldl (fun x c => 10 * x + digitVal c) (10 * acc + digitVal c) :=
      ih _
    calc acc * 10 ^ (c :: cs).length
        = 10 * acc * 10 ^ cs.length := h1
      _ ≤ (10 * acc + digitVal c) * 10 ^ cs.length := h2
      _ ≤ cs.foldl (fun x c => 10 * x + digitVal c) (10 * acc + digitVal c) :=
          h3
      _ = (c :: cs).foldl (fun x c => 10 * x + digitVal c) acc := rfl

theorem digitsVal_long_ge (a : Char) (rest : List Char)
    (ha : 49 ≤ a.toNat) (hlen : 3 ≤ rest.length) :
    1000 ≤ digitsVal (a :: rest) := by
  have h0 : digitsVal (a :: rest) =
      rest.foldl (fun x c => 10 * x + digitVal c) (digitVal a) := by
    simp [digitsVal]
  have h1 : digitVal a * 10 ^ rest.length ≤
      rest.foldl (fun x c => 10 * x + digitVal c) (digitVal a) :=
    foldl_digits_le rest (digitVal a)
  have h2 : 1 ≤ digitVal a := by
    simp only [digitVal]
    omega
  have h3 : (1000 : Nat) ≤ 10 ^ rest.length := by
    calc (1000 : Nat) = 10 ^ 3 := by norm_num
      _ ≤ 10 ^ rest.length := Nat.pow_le_pow_right (by norm_num) hlen
  have h4 : 10 ^ rest.length ≤ digitVal a * 10 ^ rest.length := by
    calc 10 ^ rest.length = 1 * 10 ^ rest.length := by ring
      _ ≤ digitVal a * 10 ^ rest.length := Nat.mul_le_mul_right _ h2
  rw [h0]
  omega

theorem octetShape_iff_canonical (p : List Char) :
    octetShape p = true ↔ isCanonicalOctet p = true := by
  rcases p with _ | ⟨a, _ | ⟨b, _ | ⟨c, _ | ⟨d, t⟩⟩⟩⟩
  · simp [octetShape, isCanonicalOctet]
  · simp only [octetShape, octet1, isCanonicalOctet, isDigitChar, digitsVal,
      digitVal, List.foldl, List.all_nil, List.isEmpty_nil, Bool.and_eq_true,
      Bool.or_eq_true, decide_eq_true_eq, and_true, Bool.and_true,
      Bool.or_true]
    omega
  · simp only [octetShape, octet2, isCanonicalOctet, isDigitChar, digitsVal,
      digitVal, List.foldl, List.all_cons, List.all_nil,
      List.isEmpty_cons, Bool.and_eq_true, Bool.or_eq_true,
      decide_eq_true_eq, and_true, Bool.and_true, Bool.or_false]
    omega
  · simp only [octetShape, octet3, isCanonicalOctet, isDigitChar, digitsVal,
      digitVal, List.foldl, List.all_cons, List.all_nil,
      List.isEmpty_cons, Bool.and_eq_true, Bool.or_eq_true,
      decide_eq_true_eq, and_true, Bool.and_true, Bool.or_false]
    omega
  · constructor
    · intro h
      simp [octetShape] at h
    · intro h
      exfalso
      simp only [isCanonicalOctet, isDigitChar, List.all_cons,
        List.isEmpty_cons, Bool.and_eq_true, Bool.or_eq_true,
        decide_eq_true_eq, Bool.or_false] at h
      obtain ⟨⟨⟨hda, _⟩, hne⟩, hle⟩ := h
      have ha : 49 ≤ a.toNat := by omega
      have hlen : 3 ≤ (b :: c :: d :: t).length := by simp
      have := digitsVal_long_ge a (b :: c :: d :: t) ha hlen
      omega

/-- The regex recognizes exactly the dotted-quad IPv4 addresses. -/
theorem regexTest_eq_isDottedQuadIPv4 (s : String) :
    regexTest s = true ↔ isDottedQuadIPv4 s = true := by
  rw [regexTest_iff]
  constructor
  · rintro ⟨p1, p2, p3, p4, h1, h2, h3, h4, hdata⟩
    have d1 := octetShape_not_dot_mem h1
    have d2 := octetShape_not_dot_mem h2
    have d3 := octetShape_not_dot_mem h3
    have d4 := octetShape_not_dot_mem h4
    have hsplit : splitOnDot s.data = [p1, p2, p3, p4] := by
      rw [hdata, splitOnDot_append _ _ d1, splitOnDot_append _ _ d2,
        splitOnDot_append _ _ d3, splitOnDot_dotfree _ d4]
    unfold isDottedQuadIPv4
    rw [hsplit]
    simp [(octetShape_iff_canonical p1).mp h1,
      (octetShape_iff_canonical p2).mp h2,
      (octetShape_iff_canonical p3).mp h3,
      (octetShape_iff_canonical p4).mp h4]
  · intro h
    unfold isDottedQuadIPv4 at h
    rcases hsplit : splitOnDot s.data with
      _ | ⟨q1, _ | ⟨q2, _ | ⟨q3, _ | ⟨q4, _ | ⟨q5, qs⟩⟩⟩⟩⟩ <;>
      rw [hsplit] at h <;> simp at h
    obtain ⟨⟨⟨hc1, hc2⟩, hc3⟩, hc4⟩ := h
    have hjoin := joinDots_splitOnDot s.data
    rw [hsplit] at hjoin
    refine ⟨q1, q2, q3, q4, (octetShape_iff_canonical q1).mpr hc1,
      (octetShape_iff_canonical q2).mpr hc2,
      (octetShape_iff_canonical q3).mpr hc3,
      (octetShape_iff_canonical q4).mpr hc4, ?_⟩
    rw [← hjoin]
    simp [joinDots]

theorem checkIfValidIP_ok_iff (s : String) :
    checkIfValidIP s = Except.ok s ↔ isDottedQuadIPv4 s = true := by
  rw [← regexTest_eq_isDottedQuadIPv4]
  unfold checkIfValidIP
  by_cases h : regexTest s = true
  · simp [h]
  · simp [h]

/-! ## The constructor's success characterization -/

theorem cloudWatchToSplunk_ok_iff (props : CloudWatchToSplunkProps)
    (r : CloudWatchToSplunkResources) :
    cloudWatchToSplunk props = Except.ok r ↔
      props.logGroups.Nodup ∧ r = synthesizedResources props := by
  unfold cloudWatchToSplunk
  split_ifs with h
  · constructor
    · intro he
      simp only [Except.ok.injEq] at he
      exact ⟨h, he.symm⟩
    · rintro ⟨-, rfl⟩
      rfl
  · constructor
    · intro he
      simp at he
    · rintro ⟨hn, -⟩
      exact absurd hn h

/-! ## Claim theorems -/

/-- Claim C1: for every CloudWatchToSplunk construct instance, the
synthesized delivery stream has processing enabled with exactly one
processor, of type Lambda, whose `LambdaArn` parameter is the CloudWatch
transform function, so every buffered batch read from the Ingest Stream
passes through the Transform Function exactly once before forwarding. -/
theorem claim_C1_single_lambda_processor (props : CloudWatchToSplunkProps)
    (r : CloudWatchToSplunkResources)
    (h : cloudWatchToSplunk props = Except.ok r) :
    r.splunkDeliveryStream.splunkDestinationConfiguration.processingConfiguration.enabled
        = true ∧
      r.splunkDeliveryStream.splunkDestinationConfiguration.processingConfiguration.processors
        = [{ type := "Lambda"
             parameters :=
               [{ parameterName := "LambdaArn"
                  parameterValue := r.cloudwatchTransformer.functionArn }
                , { parameterName := "RoleArn"
                    parameterValue := deliveryStreamRoleArn }] }] := by
  rw [cloudWatchToSplunk_ok_iff] at h
  obtain ⟨-, rfl⟩ := h
  exact ⟨rfl, rfl⟩

/-- Witness for C1 at the sample props. -/
theorem claim_C1_witness :
    (synthesizedResources exampleProps).splunkDeliveryStream.splunkDestinationConfiguration.processingConfiguration.enabled
        = true ∧
      (synthesizedResources exampleProps).splunkDeliveryStream.splunkDestinationConfiguration.processingConfiguration.processors
        = [{ type := "Lambda"
             parameters :=
               [{ parameterName := "LambdaArn"
                  parameterValue :=
                    (synthesizedResources exampleProps).cloudwatchTransformer.functionArn }
                , { parameterName := "RoleArn"
                    parameterValue := deliveryStreamRoleArn }] }] :=
  claim_C1_single_lambda_processor exampleProps
    (synthesizedResources exampleProps) (by rfl)

/-- Claim C2: for every construct instance, CloudWatch error logging of
the delivery stream is enabled and targets the `errors` log stream of the
dedicated error log group, and the construct's backup bucket is the
delivery stream's S3 destination, so failed batches are written to the
Backup Store and logged to the Delivery Error Log. -/
theorem claim_C2_error_logging_and_backup (props : CloudWatchToSplunkProps)
    (r : CloudWatchToSplunkResources)
    (h : cloudWatchToSplunk props = Except.ok r) :
    r.splunkDeliveryStream.splunkDestinationConfiguration.cloudWatchLoggingOptions.enabled
        = true ∧
      r.splunkDeliveryStream.splunkDestinationConfiguration.cloudWatchLoggingOptions.logGroupName
        = r.kinesisDeliveryStreamLogs.logGroupName ∧
      r.splunkDeliveryStream.splunkDestinationConfiguration.cloudWatchLoggingOptions.logStreamName
        = r.kinesisErrorsLogStream.logStreamName ∧
      r.kinesisErrorsLogStream.logStreamName = "errors" ∧
      r.splunkDeliveryStream.splunkDestinationConfiguration.s3Configuration.bucketArn
        = r.backupBucket.bucketArn := by
  rw [cloudWatchToSplunk_ok_iff] at h
  obtain ⟨-, rfl⟩ := h
  exact ⟨rfl, rfl, rfl, rfl, rfl⟩

/-- Witness for C2 at the sample props. -/
theorem claim_C2_witness :
    (synthesizedResources exampleProps).splunkDeliveryStream.splunkDestinationConfiguration.cloudWatchLoggingOptions.enabled
        = true ∧
      (synthesizedResources exampleProps).splunkDeliveryStream.splunkDestinationConfiguration.cloudWatchLoggingOptions.logGroupName
        = (synthesizedResources exampleProps).kinesisDeliveryStreamLogs.logGroupName ∧
      (synthesizedResources exampleProps).splunkDeliveryStream.splunkDestinationConfiguration.cloudWatchLoggingOptions.logStreamName
        = (synthesizedResources exampleProps).kinesisErrorsLogStream.logStreamName ∧
      (synthesizedResources exampleProps).kinesisErrorsLogStream.logStreamName
        = "errors" ∧
      (synthesizedResources exampleProps).splunkDeliveryStream.splunkDestinationConfiguration.s3Configuration.bucketArn
        = (synthesizedResources exampleProps).backupBucket.bucketArn :=
  claim_C2_error_logging_and_backup exampleProps
    (synthesizedResources exampleProps) (by rfl)

/-- Claim C3: for every log group in the construct's `logGroups` input,
exactly one subscription filter is attached, and every attached filter
targets the ingest stream with the empty (match-all) filter pattern. -/
theorem claim_C3_subscription_filters (props : CloudWatchToSplunkProps)
    (r : CloudWatchToSplunkResources)
    (h : cloudWatchToSplunk props = Except.ok r) :
    (∀ lg ∈ props.logGroups,
        (r.subscriptionFilters.filter fun f => f.logGroup = lg).length = 1) ∧
      ∀ f ∈ r.subscriptionFilters,
        f.destinationArn = r.ingestStream.streamArn ∧ f.filterPattern = "" := by
  rw [cloudWatchToSplunk_ok_iff] at h
  obtain ⟨hn, rfl⟩ := h
  constructor
  · intro lg hlg
    have hcount := List.count_eq_one_of_mem hn hlg
    rw [List.count, List.countP_eq_length_filter] at hcount
    rw [show (synthesizedResources props).subscriptionFilters =
        props.logGroups.map fun logGroup =>
          ({ logGroup := logGroup
             destinationArn := ingestStreamArn
             filterPattern := FilterPattern.allEvents } : SubscriptionFilter)
      from rfl]
    rw [List.filter_map]
    rw [List.length_map]
    exact hcount
  · intro f hf
    have hf2 : f ∈ props.logGroups.map fun logGroup =>
        ({ logGroup := logGroup
           destinationArn := ingestStreamArn
           filterPattern := FilterPattern.allEvents } : SubscriptionFilter) := hf
    rw [List.mem_map] at hf2
    obtain ⟨lg, -, rfl⟩ := hf2
    exact ⟨rfl, rfl⟩

/-- Witness for C3: in the sample instance, the first sample log group
has exactly one subscription filter. -/
theorem claim_C3_witness :
    ((synthesizedResources exampleProps).subscriptionFilters.filter
        fun f => f.logGroup = ⟨0⟩).length = 1 :=
  (claim_C3_subscription_filters exampleProps
      (synthesizedResources exampleProps) (by rfl)).1 ⟨0⟩ (by decide)

/-- Claim C4 is refuted as stated: the construct performs no TLS
validation, so a non-HTTPS `hecEndpoint` is accepted and embedded
verbatim in the delivery stream configuration. -/
theorem claim_C4_counterexample :
    (cloudWatchToSplunk
          { logGroups := [⟨0⟩]
            hecEndpoint := "http://insecure-endpoint:8088"
            hecToken := SecretValue.plainText "value" }).map
        (fun r => r.splunkDeliveryStream.splunkDestinationConfiguration.hecEndpoint)
      = Except.ok "http://insecure-endpoint:8088" ∧
    "http://insecure-endpoint:8088".data.take 8 ≠ "https://".data := by
  exact ⟨rfl, by decide⟩

/-- Claim C4 (amended): for every construct instance the delivery stream
uses endpoint type `Raw` and the pre-shared bearer token, and embeds the
given `hecEndpoint` verbatim; HTTPS is required only by documentation,
not validated. -/
theorem claim_C4_amended_raw_https (props : CloudWatchToSplunkProps)
    (r : CloudWatchToSplunkResources)
    (h : cloudWatchToSplunk props = Except.ok r) :
    r.splunkDeliveryStream.splunkDestinationConfiguration.hecEndpointType
        = "Raw" ∧
      r.splunkDeliveryStream.splunkDestinationConfiguration.hecToken
        = props.hecToken.toStr ∧
      r.splunkDeliveryStream.splunkDestinationConfiguration.hecEndpoint
        = props.hecEndpoint := by
  rw [cloudWatchToSplunk_ok_iff] at h
  obtain ⟨-, rfl⟩ := h
  exact ⟨rfl, rfl, rfl⟩

/-- Witness for the amended C4 at the sample props. -/
theorem claim_C4_witness :
    (synthesizedResources exampleProps).splunkDeliveryStream.splunkDestinationConfiguration.hecEndpointType
        = "Raw" ∧
      (synthesizedResources exampleProps).splunkDeliveryStream.splunkDestinationConfiguration.hecToken
        = exampleProps.hecToken.toStr ∧
      (synthesizedResources exampleProps).splunkDeliveryStream.splunkDestinationConfiguration.hecEndpoint
        = exampleProps.hecEndpoint :=
  claim_C4_amended_raw_https exampleProps
    (synthesizedResources exampleProps) (by rfl)

/-- Claim C5 is refuted as stated: the backup bucket is created with
`autoDeleteObjects: true` and `RemovalPolicy.DESTROY`, so the system
deletes persisted batches when the construct is destroyed; they are not
retained unconditionally. -/
theorem claim_C5_counterexample :
    (cloudWatchToSplunk
          { logGroups := [⟨0⟩]
            hecEndpoint := "https://my-endpoint:8088"
            hecToken := SecretValue.plainText "value" }).map
        (fun r => (r.backupBucket.autoDeleteObjects, r.backupBucket.removalPolicy))
      = Except.ok (true, RemovalPolicy.DESTROY) := rfl

/-- Claim C5 (amended): the backup bucket is the delivery stream's S3
destination for undelivered batches, but it is configured with
`RemovalPolicy.DESTROY` and `autoDeleteObjects: true`, so persisted
batches remain available only until the construct is destroyed. -/
theorem claim_C5_amended_backup_destroyable (props : CloudWatchToSplunkProps)
    (r : CloudWatchToSplunkResources)
    (h : cloudWatchToSplunk props = Except.ok r) :
    r.splunkDeliveryStream.splunkDestinationConfiguration.s3Configuration.bucketArn
        = r.backupBucket.bucketArn ∧
      r.backupBucket.removalPolicy = RemovalPolicy.DESTROY ∧
      r.backupBucket.autoDeleteObjects = true := by
  rw [cloudWatchToSplunk_ok_iff] at h
  obtain ⟨-, rfl⟩ := h
  exact ⟨rfl, rfl, rfl⟩

/-- Witness for the amended C5 at the sample props. -/
theorem claim_C5_witness :
    (synthesizedResources exampleProps).splunkDeliveryStream.splunkDestinationConfiguration.s3Configuration.bucketArn
        = (synthesizedResources exampleProps).backupBucket.bucketArn ∧
      (synthesizedResources exampleProps).backupBucket.removalPolicy
        = RemovalPolicy.DESTROY ∧
      (synthesizedResources exampleProps).backupBucket.autoDeleteObjects = true :=
  claim_C5_amended_backup_destroyable exampleProps
    (synthesizedResources exampleProps) (by rfl)

/-- Claim C6: for every construct instance the ingest stream is created
in on-demand capacity mode with no fixed shard count configured. -/
theorem claim_C6_on_demand_mode (props : CloudWatchToSplunkProps)
    (r : CloudWatchToSplunkResources)
    (h : cloudWatchToSplunk props = Except.ok r) :
    r.ingestStream.streamMode = StreamMode.ON_DEMAND ∧
      r.ingestStream.shardCount = none := by
  rw [cloudWatchToSplunk_ok_iff] at h
  obtain ⟨-, rfl⟩ := h
  exact ⟨rfl, rfl⟩

/-- Witness for C6 at the sample props. -/
theorem claim_C6_witness :
    (synthesizedResources exampleProps).ingestStream.streamMode
        = StreamMode.ON_DEMAND ∧
      (synthesizedResources exampleProps).ingestStream.shardCount = none :=
  claim_C6_on_demand_mode exampleProps
    (synthesizedResources exampleProps) (by rfl)

/-- Claim C7: for every construct instance the ingest stream is created
with no retention override, so the 24-hour default retention window
applies. -/
theorem claim_C7_default_retention (props : CloudWatchToSplunkProps)
    (r : CloudWatchToSplunkResources)
    (h : cloudWatchToSplunk props = Except.ok r) :
    r.ingestStream = KinesisStream.make ingestStreamArn
        { streamMode := StreamMode.ON_DEMAND
          retentionPeriodHours := none
          shardCount := none } ∧
      r.ingestStream.retentionPeriodHours = 24 := by
  rw [cloudWatchToSplunk_ok_iff] at h
  obtain ⟨-, rfl⟩ := h
  exact ⟨rfl, rfl⟩

/-- Witness for C7 at the sample props. -/
theorem claim_C7_witness :
    (synthesizedResources exampleProps).ingestStream = KinesisStream.make
        ingestStreamArn
        { streamMode := StreamMode.ON_DEMAND
          retentionPeriodHours := none
          shardCount := none } ∧
      (synthesizedResources exampleProps).ingestStream.retentionPeriodHours
        = 24 :=
  claim_C7_default_retention exampleProps
    (synthesizedResources exampleProps) (by rfl)

/-- Claim C9: `checkIfValidIP` returns its input unchanged exactly when
the input is a dotted-quad IPv4 address whose four octets lie in 0 to
255, throws on every other input, and `getPublicIp` therefore only ever
returns a syntactically valid IPv4 string (the `ip` field of the fetched
response). -/
theorem claim_C9_checkIfValidIP (s : String) (d : IPIfyResponse) :
    (checkIfValidIP s = Except.ok s ↔ isDottedQuadIPv4 s = true) ∧
      (isDottedQuadIPv4 s = false →
        checkIfValidIP s = Except.error (s ++ " does not look valid.")) ∧
      ∀ ip, getPublicIp d = Except.ok ip →
        isDottedQuadIPv4 ip = true ∧ ip = d.ip := by
  refine ⟨checkIfValidIP_ok_iff s, ?_, ?_⟩
  · intro hfalse
    unfold checkIfValidIP
    rw [if_neg]
    intro htrue
    rw [regexTest_eq_isDottedQuadIPv4] at htrue
    rw [htrue] at hfalse
    cases hfalse
  · intro ip hip
    unfold getPublicIp at hip
    rcases hcv : checkIfValidIP d.ip with e | v
    · rw [hcv] at hip
      simp at hip
    · rw [hcv] at hip
      simp only [Except.ok.injEq] at hip
      subst hip
      unfold checkIfValidIP at hcv
      by_cases hr : regexTest d.ip = true
      · rw [if_pos hr] at hcv
        simp only [Except.ok.injEq] at hcv
        subst hcv
        exact ⟨(regexTest_eq_isDottedQuadIPv4 _).mp hr, rfl⟩
      · rw [if_neg hr] at hcv
        simp at hcv

/-- Witness for C9: a valid address is returned unchanged, an
out-of-range octet throws, and a response carrying a valid address
passes the validity check. -/
theorem claim_C9_witness :
    checkIfValidIP "192.168.0.1" = Except.ok "192.168.0.1" ∧
      checkIfValidIP "999.168.0.1"
        = Except.error "999.168.0.1 does not look valid." ∧
      (isDottedQuadIPv4 "10.0.0.1" = true ∧
        "10.0.0.1" = ({ ip := "10.0.0.1" } : IPIfyResponse).ip) := by
  refine ⟨?_, ?_, ?_⟩
  · exact (claim_C9_checkIfValidIP "192.168.0.1" ⟨"0.0.0.0"⟩).1.mpr (by decide)
  · exact (claim_C9_checkIfValidIP "999.168.0.1" ⟨"0.0.0.0"⟩).2.1 (by decide)
  · exact (claim_C9_checkIfValidIP "0.0.0.0" ⟨"10.0.0.1"⟩).2.2 "10.0.0.1"
      (by rfl)

/-- Claim C10 is refuted as stated: for a Secrets-Manager-backed
`hecToken` — the form the repository's own deployment stack passes in
(`SplunkService.hecToken`) — the synthesized `HECToken` property is the
CloudFormation dynamic secret reference, not the plaintext bearer token,
so the token does not appear in plaintext for every `hecToken` input. -/
theorem claim_C10_counterexample :
    (cloudWatchToSplunk
          { logGroups := [⟨0⟩]
            hecEndpoint := "https://my-endpoint:8088"
            hecToken :=
              SecretValue.secretsManager "arn:aws:secretsmanager:SplunkHECTokenSecret" }).map
        (fun r => r.splunkDeliveryStream.splunkDestinationConfiguration.hecToken)
      = Except.ok
          "\x7b\x7bresolve:secretsmanager:arn:aws:secretsmanager:SplunkHECTokenSecret:SecretString:::\x7d\x7d" ∧
    "\x7b\x7bresolve:secretsmanager:arn:aws:secretsmanager:SplunkHECTokenSecret:SecretString:::\x7d\x7d".data.take 10
      = "\x7b\x7bresolve:".data := by
  exact ⟨rfl, by decide⟩

/-- Claim C10 (amended): for every `hecToken` input, the construct
resolves the `SecretValue` via `toString` and embeds the result verbatim
as the delivery stream's `HECToken` property: a plaintext `SecretValue`
appears as the plaintext bearer token in the synthesized template, while
a Secrets-Manager-backed `SecretValue` appears as a dynamic secret
reference to the backing secret. -/
theorem claim_C10_amended_token_resolution (props : CloudWatchToSplunkProps)
    (r : CloudWatchToSplunkResources)
    (h : cloudWatchToSplunk props = Except.ok r) :
    r.splunkDeliveryStream.splunkDestinationConfiguration.hecToken
        = props.hecToken.toStr ∧
      (∀ v, props.hecToken = SecretValue.plainText v →
        r.splunkDeliveryStream.splunkDestinationConfiguration.hecToken = v) ∧
      ∀ arn, props.hecToken = SecretValue.secretsManager arn →
        r.splunkDeliveryStream.splunkDestinationConfiguration.hecToken
          = "\x7b\x7bresolve:secretsmanager:" ++ arn ++ ":SecretString:::\x7d\x7d" := by
  rw [cloudWatchToSplunk_ok_iff] at h
  obtain ⟨-, rfl⟩ := h
  refine ⟨rfl, ?_, ?_⟩
  · rintro v hv
    show props.hecToken.toStr = v
    rw [hv]
    rfl
  · rintro arn harn
    show props.hecToken.toStr = _
    rw [harn]
    rfl

/-- Witness for the amended C10: the sample props carry the plaintext
token `value`, which appears verbatim in the delivery stream
configuration. -/
theorem claim_C10_witness :
    (synthesizedResources exampleProps).splunkDeliveryStream.splunkDestinationConfiguration.hecToken
        = "value" :=
  (claim_C10_amended_token_resolution exampleProps
      (synthesizedResources exampleProps) (by rfl)).2.1 "value" (by rfl)

end CloudWatchLogsToSplunk
